import Mathlib

/-!
# Status widget (`static/app.js`)

A shallow embedding of the browser script `src/interface_adapter/fastapi/static/app.js`
and the properties of its renderer and of its click handler.

The script is thirty-five lines of JavaScript: three string-building arrow functions
(`okBadge`, `item`, `render`) and one asynchronous click handler.  What makes its
behaviour non-trivial is the JavaScript semantics it leans on: property reads that throw
on `null`/`undefined`, truthiness (`ToBoolean`), the `||` operator, and the string
conversion (`ToString`) performed by template literals, which throws on an object with
an own `toString` property and on arrays nested deeper than the call stack has room
for.  Those are embedded first.
-/

namespace StatusWidget

/-! ## JavaScript values -/

/-- A JavaScript Number, kept as the two observations this script makes of a number:
whether it is falsy (`+0` or `-0`; `JSON.parse` never yields `NaN`) and the text that
`Number::toString` gives for it. -/
structure JSNumber where
  isZero : Bool
  text : String

mutual
/-- The values `JSON.parse` can produce, plus `undefined` (the result of reading a
property that is not there). -/
inductive JSValue where
  | undefined
  | null
  | bool (b : Bool)
  | number (n : JSNumber)
  | string (s : String)
  | array (items : JSList)
  | object (props : JSProps)
/-- The elements of an array, in index order. -/
inductive JSList where
  | nil
  | cons (head : JSValue) (tail : JSList)
/-- The own properties of an object created by `JSON.parse` (string keys, data
properties only). -/
inductive JSProps where
  | nil
  | cons (key : String) (value : JSValue) (rest : JSProps)
end

/-- The exceptions and rejection reasons that can reach the handler. -/
inductive JSError where
  | typeError
  | rangeError
  | syntaxError
  | other (name : String)

/-- Own-property lookup. -/
def JSProps.lookup (k : String) : JSProps → Option JSValue
  | .nil => none
  | .cons k2 v rest => if k2 = k then some v else JSProps.lookup k rest

/-- The property read `v.k` for the four names the script reads (`ok`, `error`,
`chatwoot`, `mysql`): none of them is defined on a built-in prototype, so the read
yields the own property of an object, `undefined` on any other non-nullish value, and
throws a `TypeError` on `null` and `undefined`. -/
def getProp (v : JSValue) (k : String) : Except JSError JSValue :=
  match v with
  | .undefined => .error .typeError
  | .null => .error .typeError
  | .object ps => .ok ((ps.lookup k).getD .undefined)
  | _ => .ok .undefined

/-- The abstract operation `ToBoolean`. -/
def toBoolean : JSValue → Bool
  | .undefined => false
  | .null => false
  | .bool b => b
  | .number n => !n.isZero
  | .string s => !(s.data.isEmpty)
  | .array _ => true
  | .object _ => true

/-- The operator `a || b`. -/
def logicalOr (a b : JSValue) : JSValue :=
  if toBoolean a then a else b

mutual
/-- The abstract operation `ToString`, as a template literal applies it to a
substitution.  A plain object turns into `[object Object]` through
`Object.prototype.toString`, unless it has an own property `toString`: a value parsed
from JSON is never callable, `Object.prototype.valueOf` returns the object itself, and
`OrdinaryToPrimitive` throws a `TypeError`.  An array goes through
`Array.prototype.join`, which calls `ToString` again on the elements: every level of
array nesting takes room on the call stack, and when the stack is used up the engine
throws a `RangeError`.  The first argument is the number of array levels for which the
stack has room where the template literal is evaluated; it depends on the engine and is
left as a parameter. -/
def toStringJS : Nat → JSValue → Except JSError String
  | _, .undefined => .ok "undefined"
  | _, .null => .ok "null"
  | _, .bool true => .ok "true"
  | _, .bool false => .ok "false"
  | _, .number n => .ok n.text
  | _, .string s => .ok s
  | limit, .array xs =>
      match limit with
      | 0 => .error .rangeError
      | rest + 1 => joinJS rest xs
  | _, .object ps =>
      if (ps.lookup "toString").isSome then .error .typeError else .ok "[object Object]"
termination_by structural _ v => v
/-- The method `Array.prototype.join` with the default separator: `undefined` and `null`
elements give the empty string, every other element goes through `ToString`, with the
room on the stack that is left inside the array. -/
def joinJS : Nat → JSList → Except JSError String
  | _, .nil => .ok ""
  | limit, .cons x rest => do
      let first ← (match x with
        | .undefined => pure ""
        | .null => pure ""
        | v => toStringJS limit v)
      match rest with
      | .nil => pure first
      | .cons y more => do
          let others ← joinJS limit (.cons y more)
          pure (first ++ "," ++ others)
termination_by structural _ xs => xs
end

/-! ## The renderer -/

/-- The arrow function `okBadge`. -/
def okBadge (ok : JSValue) : String :=
  if toBoolean ok
    then "<span class=\"badge bg-success\">OK</span>"
    else "<span class=\"badge bg-danger\">ERROR</span>"

/-- The arrow function `item`.  Both call sites pass a string literal for `name`, so the
substitution of `name` is the identity.  The argument `limit` is the room on the call
stack, see `toStringJS`. -/
def item (limit : Nat) (name : String) (result : JSValue) : Except JSError String := do
  let error ← getProp result "error"
  let detail ← toStringJS limit (logicalOr error (.string ""))
  let ok ← getProp result "ok"
  pure ("\n  <div class=\"d-flex justify-content-between align-items-center border rounded p-2 mb-2\">\n    <div>\n      <strong>"
    ++ name ++ "</strong>\n      <div class=\"text-muted small\">"
    ++ detail ++ "</div>\n    </div>\n    "
    ++ okBadge ok ++ "\n  </div>")

/-- The template literal that `render` assigns to the display region; `limit` is the
room on the call stack, see `toStringJS`. -/
def renderHtml (limit : Nat) (data : JSValue) : Except JSError String := do
  let ok ← getProp data "ok"
  let chatwoot ← getProp data "chatwoot"
  let first ← item limit "Chatwoot API" chatwoot
  let mysql ← getProp data "mysql"
  let second ← item limit "MySQL" mysql
  pure ("\n    <div class=\"mb-2\">" ++ okBadge ok ++ " Resultado general</div>\n    "
    ++ first ++ "\n    " ++ second ++ "\n  ")

/-! ## The page and the click handler -/

/-- One call of `fetch`. -/
structure Request where
  method : String
  url : String
  body : Option String

/-- The part of the page the script acts on: the markup of the element `status` (which
the page is assumed to contain) and the requests issued so far. -/
structure World where
  innerHTML : String
  requests : List Request

/-- The assignment `statusEl.innerHTML = html`. -/
def World.setInnerHTML (html : String) (w : World) : World :=
  { w with innerHTML := html }

/-- The call `fetch(url)` without options: a GET request without a body. -/
def World.fetch (url : String) (w : World) : World :=
  { w with requests := w.requests ++ [{ method := "GET", url := url, body := none }] }

/-- The arrow function `render`: the template is evaluated first, the assignment happens
only when no substitution threw. -/
def render (limit : Nat) (data : JSValue) (w : World) : Except JSError World := do
  let html ← renderHtml limit data
  pure (w.setInnerHTML html)

/-- A response: what the promise of `resp.json()` settles to. -/
structure Response where
  json : Except JSError JSValue

/-- The click handler up to its first `await`: the interim message is written, then
`fetch` is called and the handler is suspended on the promise. -/
def handlerStart (w : World) : World :=
  (w.setInnerHTML "<div class=\"text-muted\">Verificando...</div>").fetch "/api/status"

/-- The click handler from its first `await` to its end, given what the promise of
`fetch` settles to.  Inside the `try` block the only write to the page is the last step
of `render`, so the `catch` block runs on the page as it was at the `await`. -/
def handlerResume (limit : Nat) (settled : Except JSError Response) (w : World) :
    Except JSError World := do
  try
    let resp ← settled
    let data ← resp.json
    render limit data w
  catch _ =>
    pure (w.setInnerHTML "<div class=\"text-danger\">No se pudo verificar.</div>")

/-- The click handler, run to completion. -/
def clickHandler (limit : Nat) (settled : Except JSError Response) (w : World) :
    Except JSError World :=
  handlerResume limit settled (handlerStart w)

/-! ## The response contract -/

/-- The shape `{ "ok": boolean, "error": string|null }` of a sub-check in the response
contract; `error` may also be absent. -/
def isCheckResult : JSValue → Bool
  | .object ps =>
      (match ps.lookup "ok" with
        | some (.bool _) => true
        | _ => false) &&
      (match ps.lookup "error" with
        | none => true
        | some .null => true
        | some (.string _) => true
        | _ => false)
  | _ => false

/-- The values on which a property read throws. -/
def isNullish : JSValue → Bool
  | .undefined => true
  | .null => true
  | _ => false

mutual
/-- The values that hold an object with an own property `toString` where `ToString`
reaches it: such an object itself, or an array with such an element at any depth of
nested arrays. -/
def unprintable : JSValue → Bool
  | .array xs => anyUnprintable xs
  | .object ps => (ps.lookup "toString").isSome
  | _ => false
termination_by structural v => v
/-- Some element of the list is unprintable. -/
def anyUnprintable : JSList → Bool
  | .nil => false
  | .cons x rest => unprintable x || anyUnprintable rest
termination_by structural xs => xs
end

mutual
/-- The depth of array nesting of a value: zero for a value that is not an array, one
more than the deepest element for an array.  Arrays inside objects do not count,
`ToString` does not enter an object. -/
def arrayDepth : JSValue → Nat
  | .array xs => maxArrayDepth xs + 1
  | _ => 0
termination_by structural v => v
/-- The largest `arrayDepth` among the elements of a list. -/
def maxArrayDepth : JSList → Nat
  | .nil => 0
  | .cons x rest => max (arrayDepth x) (maxArrayDepth rest)
termination_by structural xs => xs
end

/-- The sub-check `{"ok":true,"error":null}`. -/
def sampleChatwoot : JSValue :=
  .object (.cons "ok" (.bool true) (.cons "error" .null .nil))

/-- The sub-check `{"ok":false,"error":"connection refused"}`. -/
def sampleMysql : JSValue :=
  .object (.cons "ok" (.bool false) (.cons "error" (.string "connection refused") .nil))

/-- The sample response of the specification:
`{"ok":false,"chatwoot":{"ok":true,"error":null},"mysql":{"ok":false,"error":"connection refused"}}`. -/
def sampleReport : JSValue :=
  .object (.cons "ok" (.bool false)
    (.cons "chatwoot" sampleChatwoot (.cons "mysql" sampleMysql .nil)))

/-- A page with an empty display region and no request issued yet. -/
def emptyWorld : World :=
  { innerHTML := "", requests := [] }

/-- The response `{"ok":true,"mysql":{"ok":true,"error":null}}`, which parses as JSON
but has no `chatwoot` field. -/
def missingChatwoot : JSValue :=
  .object (.cons "ok" (.bool true) (.cons "mysql" sampleChatwoot .nil))

/-- The response
`{"ok":true,"chatwoot":{"ok":true,"error":{"toString":1}},"mysql":{"ok":true,"error":null}}`:
both sub-checks are objects, the `error` of the first is an object with an own property
`toString`. -/
def unprintableError : JSValue :=
  .object (.cons "ok" (.bool true)
    (.cons "chatwoot" (.object (.cons "ok" (.bool true)
        (.cons "error" (.object (.cons "toString" (.number { isZero := false, text := "1" }) .nil))
          .nil)))
    (.cons "mysql" sampleChatwoot .nil)))

/-- The response
`{"ok":true,"chatwoot":{"ok":true,"error":[[]]},"mysql":{"ok":true,"error":null}}`: the
`error` of the first sub-check is an array nested two deep. -/
def nestedError : JSValue :=
  .object (.cons "ok" (.bool true)
    (.cons "chatwoot" (.object (.cons "ok" (.bool true)
        (.cons "error" (.array (.cons (.array .nil) .nil)) .nil)))
    (.cons "mysql" sampleChatwoot .nil)))

/-- The sub-check values on which `item` throws, when the call stack has room for
`limit` levels of array nesting: `null` and `undefined` (the read of `result.error`
throws), and the values whose `error` cannot be converted to a string, because it holds
an object with an own property `toString` or because its arrays are nested deeper than
`limit`. -/
def throwsInItem (limit : Nat) (c : JSValue) : Prop :=
  isNullish c = true ∨
    ∃ e, getProp c "error" = .ok e ∧ (unprintable e = true ∨ limit < arrayDepth e)

set_option maxRecDepth 100000

/-! ## Auxiliary facts -/

theorem joinJS_step (limit : Nat) (x : JSValue) (rest : JSList)
    (hx : ((unprintable x = true ∨ limit < arrayDepth x) ∧
        ∃ err, toStringJS limit x = .error err) ∨
      (unprintable x = false ∧ arrayDepth x ≤ limit ∧ ∃ s, toStringJS limit x = .ok s))
    (hr : ((anyUnprintable rest = true ∨ limit < maxArrayDepth rest) ∧
        ∃ err, joinJS limit rest = .error err) ∨
      (anyUnprintable rest = false ∧ maxArrayDepth rest ≤ limit ∧
        ∃ s, joinJS limit rest = .ok s)) :
    ((anyUnprintable (.cons x rest) = true ∨ limit < maxArrayDepth (.cons x rest)) ∧
        ∃ err, joinJS limit (.cons x rest) = .error err) ∨
      (anyUnprintable (.cons x rest) = false ∧ maxArrayDepth (.cons x rest) ≤ limit ∧
        ∃ s, joinJS limit (.cons x rest) = .ok s) := by
  rcases hx with ⟨h1, err, h2⟩ | ⟨h1, hd, s, h2⟩
  · left
    refine ⟨?_, err, ?_⟩
    · rcases h1 with h | h
      · left; simp only [anyUnprintable, h, Bool.true_or]
      · right; simp only [maxArrayDepth]; omega
    · cases x <;> first
        | (simp [toStringJS] at h2; done)
        | (unfold joinJS; simp only [h2, bind, Except.bind])
  · rcases hr with ⟨r1, err, r2⟩ | ⟨r1, rd, t, r2⟩
    · left
      refine ⟨?_, err, ?_⟩
      · rcases r1 with h | h
        · left; simp only [anyUnprintable, h, Bool.or_true]
        · right; simp only [maxArrayDepth]; omega
      · cases rest with
        | nil => simp [joinJS] at r2
        | cons y more =>
            cases x <;> unfold joinJS <;>
              simp only [h2, r2, bind, Except.bind, pure, Except.pure]
    · right
      refine ⟨by simp only [anyUnprintable, h1, r1, Bool.or_self],
        by simp only [maxArrayDepth]; omega, ?_⟩
      cases rest with
      | nil =>
          cases x <;> unfold joinJS <;>
            simp only [h2, bind, Except.bind, pure, Except.pure] <;> exact ⟨_, rfl⟩
      | cons y more =>
          cases x <;> unfold joinJS <;>
            simp only [h2, r2, bind, Except.bind, pure, Except.pure] <;> exact ⟨_, rfl⟩

theorem toStringJS_array_step (limit : Nat) (xs : JSList)
    (hr : ∀ rest, limit = rest + 1 →
      ((anyUnprintable xs = true ∨ rest < maxArrayDepth xs) ∧
        ∃ err, joinJS rest xs = .error err) ∨
      (anyUnprintable xs = false ∧ maxArrayDepth xs ≤ rest ∧ ∃ s, joinJS rest xs = .ok s)) :
    ((unprintable (.array xs) = true ∨ limit < arrayDepth (.array xs)) ∧
        ∃ err, toStringJS limit (.array xs) = .error err) ∨
      (unprintable (.array xs) = false ∧ arrayDepth (.array xs) ≤ limit ∧
        ∃ s, toStringJS limit (.array xs) = .ok s) := by
  cases limit with
  | zero =>
      left
      exact ⟨Or.inr (by simp only [arrayDepth]; omega), _, rfl⟩
  | succ n =>
      rcases hr n rfl with ⟨h1, err, h2⟩ | ⟨h1, hd, s, h2⟩
      · left
        refine ⟨?_, err, h2⟩
        rcases h1 with h1 | h1
        · left; simp only [unprintable]; exact h1
        · right; simp only [arrayDepth]; omega
      · right
        exact ⟨by simp only [unprintable]; exact h1, by simp only [arrayDepth]; omega, s, h2⟩

mutual
theorem toStringJS_cases : ∀ (limit : Nat) (v : JSValue),
    ((unprintable v = true ∨ limit < arrayDepth v) ∧ ∃ err, toStringJS limit v = .error err) ∨
    (unprintable v = false ∧ arrayDepth v ≤ limit ∧ ∃ s, toStringJS limit v = .ok s)
  | _, .undefined => Or.inr ⟨rfl, Nat.zero_le _, _, rfl⟩
  | _, .null => Or.inr ⟨rfl, Nat.zero_le _, _, rfl⟩
  | _, .bool true => Or.inr ⟨rfl, Nat.zero_le _, _, rfl⟩
  | _, .bool false => Or.inr ⟨rfl, Nat.zero_le _, _, rfl⟩
  | _, .number _ => Or.inr ⟨rfl, Nat.zero_le _, _, rfl⟩
  | _, .string _ => Or.inr ⟨rfl, Nat.zero_le _, _, rfl⟩
  | limit, .array xs => toStringJS_array_step limit xs (fun rest _ => joinJS_cases rest xs)
  | _, .object ps => by
      cases h : (ps.lookup "toString").isSome
      · right; simp [unprintable, arrayDepth, toStringJS, h]
      · left; simp [unprintable, toStringJS, h]
theorem joinJS_cases : ∀ (limit : Nat) (xs : JSList),
    ((anyUnprintable xs = true ∨ limit < maxArrayDepth xs) ∧
      ∃ err, joinJS limit xs = .error err) ∨
    (anyUnprintable xs = false ∧ maxArrayDepth xs ≤ limit ∧ ∃ s, joinJS limit xs = .ok s)
  | _, .nil => Or.inr ⟨rfl, Nat.zero_le _, _, rfl⟩
  | limit, .cons x rest =>
      joinJS_step limit x rest (toStringJS_cases limit x) (joinJS_cases limit rest)
end

theorem unprintable_logicalOr (e : JSValue) :
    unprintable (logicalOr e (.string "")) = unprintable e := by
  cases e <;> simp [logicalOr, toBoolean, unprintable] <;> split <;> simp [unprintable]

theorem arrayDepth_logicalOr (e : JSValue) :
    arrayDepth (logicalOr e (.string "")) = arrayDepth e := by
  cases e <;> simp [logicalOr, toBoolean, arrayDepth] <;> split <;> simp [arrayDepth]

theorem toStringJS_detail_string (limit : Nat) (s : String) :
    toStringJS limit (logicalOr (.string s) (.string "")) = .ok s := by
  rcases s with ⟨cs⟩
  cases cs with
  | nil => rfl
  | cons c cs => rfl

theorem getProp_nullish (v : JSValue) (k : String) (h : isNullish v = true) :
    getProp v k = .error .typeError := by
  cases v <;> simp [isNullish] at h <;> rfl

theorem getProp_not_nullish (v : JSValue) (k : String) (h : isNullish v = false) :
    ∃ x, getProp v k = .ok x := by
  cases v <;> simp [isNullish] at h <;> exact ⟨_, rfl⟩

theorem item_of_reads (limit : Nat) (name : String) (result e o : JSValue) (d : String)
    (he : getProp result "error" = .ok e) (ho : getProp result "ok" = .ok o)
    (hd : toStringJS limit (logicalOr e (.string "")) = .ok d) :
    item limit name result = .ok ("\n  <div class=\"d-flex justify-content-between align-items-center border rounded p-2 mb-2\">\n    <div>\n      <strong>"
      ++ name ++ "</strong>\n      <div class=\"text-muted small\">"
      ++ d ++ "</div>\n    </div>\n    "
      ++ okBadge o ++ "\n  </div>") := by
  simp only [item, he, ho, hd, bind, Except.bind, pure, Except.pure]

theorem item_nullish (limit : Nat) (name : String) (result : JSValue) (h : isNullish result = true) :
    item limit name result = .error .typeError := by
  simp only [item, getProp_nullish result "error" h, bind, Except.bind]

theorem item_unprintable (limit : Nat) (name : String) (result e : JSValue)
    (he : getProp result "error" = .ok e)
    (hu : unprintable e = true ∨ limit < arrayDepth e) :
    ∃ err, item limit name result = .error err := by
  rcases toStringJS_cases limit (logicalOr e (.string "")) with ⟨_, err, h2⟩ | ⟨h1, hd, _⟩
  · exact ⟨err, by simp only [item, he, h2, bind, Except.bind]⟩
  · rw [unprintable_logicalOr] at h1
    rw [arrayDepth_logicalOr] at hd
    rcases hu with hu | hu
    · rw [hu] at h1; cases h1
    · omega

theorem item_printable (limit : Nat) (name : String) (result e : JSValue)
    (he : getProp result "error" = .ok e) (hu : unprintable e = false)
    (hd : arrayDepth e ≤ limit) :
    ∃ html, item limit name result = .ok html := by
  have hn : isNullish result = false := by
    cases result <;> first | rfl | cases he
  obtain ⟨o, ho⟩ := getProp_not_nullish result "ok" hn
  rcases toStringJS_cases limit (logicalOr e (.string "")) with ⟨h1, _⟩ | ⟨_, _, d, h2⟩
  · rw [unprintable_logicalOr, arrayDepth_logicalOr] at h1
    rcases h1 with h1 | h1
    · rw [hu] at h1; cases h1
    · omega
  · exact ⟨_, item_of_reads limit name result e o d he ho h2⟩

/-- A well-formed sub-check renders: its detail is its error text (empty when the error
is absent or null) and its badge follows its own boolean. -/
theorem item_checkResult (limit : Nat) (name : String) (c : JSValue) (h : isCheckResult c = true) :
    ∃ (b : Bool) (d : String), getProp c "ok" = .ok (.bool b) ∧
      item limit name c = .ok ("\n  <div class=\"d-flex justify-content-between align-items-center border rounded p-2 mb-2\">\n    <div>\n      <strong>"
        ++ name ++ "</strong>\n      <div class=\"text-muted small\">"
        ++ d ++ "</div>\n    </div>\n    "
        ++ (if b then "<span class=\"badge bg-success\">OK</span>"
              else "<span class=\"badge bg-danger\">ERROR</span>") ++ "\n  </div>") := by
  cases c with
  | object ps =>
      simp only [isCheckResult, Bool.and_eq_true] at h
      obtain ⟨h1, h2⟩ := h
      have hok : ∃ b, ps.lookup "ok" = some (.bool b) := by
        split at h1
        · exact ⟨_, by assumption⟩
        · cases h1
      obtain ⟨b, hb⟩ := hok
      have hgo : getProp (.object ps) "ok" = .ok (.bool b) := by
        simp only [getProp, hb, Option.getD]
      have hbadge : okBadge (.bool b) = (if b then "<span class=\"badge bg-success\">OK</span>"
              else "<span class=\"badge bg-danger\">ERROR</span>") := by
        cases b <;> rfl
      split at h2
      · rename_i he
        refine ⟨b, "", hgo, ?_⟩
        rw [← hbadge]
        exact item_of_reads limit name _ .undefined _ "" (by simp only [getProp, he, Option.getD]) hgo rfl
      · rename_i he
        refine ⟨b, "", hgo, ?_⟩
        rw [← hbadge]
        exact item_of_reads limit name _ .null _ "" (by simp only [getProp, he, Option.getD]) hgo rfl
      · rename_i s he
        refine ⟨b, s, hgo, ?_⟩
        rw [← hbadge]
        exact item_of_reads limit name _ (.string s) _ s (by simp only [getProp, he, Option.getD]) hgo
          (toStringJS_detail_string limit s)
      · cases h2
  | _ => simp [isCheckResult] at h

theorem renderHtml_of_items (limit : Nat) (data o c m : JSValue) (e1 e2 : String)
    (ho : getProp data "ok" = .ok o)
    (hc : getProp data "chatwoot" = .ok c) (hm : getProp data "mysql" = .ok m)
    (h1 : item limit "Chatwoot API" c = .ok e1) (h2 : item limit "MySQL" m = .ok e2) :
    renderHtml limit data = .ok ("\n    <div class=\"mb-2\">" ++ okBadge o ++ " Resultado general</div>\n    "
      ++ e1 ++ "\n    " ++ e2 ++ "\n  ") := by
  simp only [renderHtml, ho, hc, hm, h1, h2, bind, Except.bind, pure, Except.pure]

theorem ne_of_head (a b : String) (h : a.data.head? ≠ b.data.head?) : a ≠ b := by
  intro hab
  exact h (by rw [hab])

theorem renderHtml_shape (limit : Nat) (data : JSValue) (html : String)
    (h : renderHtml limit data = .ok html) :
    ∃ o c m e1 e2, getProp data "ok" = .ok o ∧ getProp data "chatwoot" = .ok c ∧
      getProp data "mysql" = .ok m ∧ item limit "Chatwoot API" c = .ok e1 ∧ item limit "MySQL" m = .ok e2 ∧
      html = "\n    <div class=\"mb-2\">" ++ okBadge o ++ " Resultado general</div>\n    "
        ++ e1 ++ "\n    " ++ e2 ++ "\n  " := by
  unfold renderHtml at h
  cases ho : getProp data "ok" with
  | error e => simp only [ho, bind, Except.bind] at h; cases h
  | ok o =>
    cases hc : getProp data "chatwoot" with
    | error e => simp only [ho, hc, bind, Except.bind] at h; cases h
    | ok c =>
      cases h1 : item limit "Chatwoot API" c with
      | error e => simp only [ho, hc, h1, bind, Except.bind] at h; cases h
      | ok e1 =>
        cases hm : getProp data "mysql" with
        | error e => simp only [ho, hc, h1, hm, bind, Except.bind] at h; cases h
        | ok m =>
          cases h2 : item limit "MySQL" m with
          | error e => simp only [ho, hc, h1, hm, h2, bind, Except.bind] at h; cases h
          | ok e2 =>
            simp only [ho, hc, h1, hm, h2, bind, Except.bind, pure, Except.pure] at h
            injection h with h
            exact ⟨o, c, m, e1, e2, rfl, rfl, rfl, h1, h2, h.symm⟩

theorem renderHtml_head (limit : Nat) (data : JSValue) (html : String)
    (h : renderHtml limit data = .ok html) :
    html.data.head? = some '\n' := by
  obtain ⟨o, c, m, e1, e2, -, -, -, -, -, rfl⟩ := renderHtml_shape limit data html h
  simp only [String.data_append, List.append_assoc]
  rfl

theorem handlerResume_transport (limit : Nat) (reason : JSError) (w : World) :
    handlerResume limit (.error reason) w
      = .ok (w.setInnerHTML "<div class=\"text-danger\">No se pudo verificar.</div>") := rfl

theorem handlerResume_body (limit : Nat) (reason : JSError) (w : World) :
    handlerResume limit (.ok ⟨.error reason⟩) w
      = .ok (w.setInnerHTML "<div class=\"text-danger\">No se pudo verificar.</div>") := rfl

theorem handlerResume_render_ok (limit : Nat) (data : JSValue) (html : String) (w : World)
    (h : renderHtml limit data = .ok html) :
    handlerResume limit (.ok ⟨.ok data⟩) w = .ok (w.setInnerHTML html) := by
  simp only [handlerResume, render, h, bind, Except.bind, pure, Except.pure, tryCatch,
    tryCatchThe, MonadExceptOf.tryCatch, Except.tryCatch]

theorem handlerResume_render_error (limit : Nat) (data : JSValue) (e : JSError) (w : World)
    (h : renderHtml limit data = .error e) :
    handlerResume limit (.ok ⟨.ok data⟩) w
      = .ok (w.setInnerHTML "<div class=\"text-danger\">No se pudo verificar.</div>") := by
  simp only [handlerResume, render, h, bind, Except.bind, pure, Except.pure, tryCatch,
    tryCatchThe, MonadExceptOf.tryCatch, Except.tryCatch]

theorem handlerResume_cases (limit : Nat) (settled : Except JSError Response) (w : World) :
    handlerResume limit settled w
        = .ok (w.setInnerHTML "<div class=\"text-danger\">No se pudo verificar.</div>") ∨
      ∃ data html, settled = .ok ⟨.ok data⟩ ∧ renderHtml limit data = .ok html ∧
        handlerResume limit settled w = .ok (w.setInnerHTML html) := by
  rcases settled with reason | ⟨reason | data⟩
  · left; rfl
  · left; rfl
  · cases h : renderHtml limit data with
    | error e => left; exact handlerResume_render_error limit data e w h
    | ok html => right; exact ⟨data, html, rfl, h, handlerResume_render_ok limit data html w h⟩

theorem item_congr (limit : Nat) (name : String) (c1 c2 : JSValue)
    (hok : getProp c1 "ok" = getProp c2 "ok") (he : getProp c1 "error" = getProp c2 "error") :
    item limit name c1 = item limit name c2 := by
  simp only [item, hok, he]

theorem item_cases (limit : Nat) (name : String) (c : JSValue) :
    (throwsInItem limit c ∧ ∃ err, item limit name c = .error err) ∨
    (¬ throwsInItem limit c ∧ ∃ html, item limit name c = .ok html) := by
  cases hn : isNullish c with
  | true => left; exact ⟨Or.inl hn, _, item_nullish limit name c hn⟩
  | false =>
    obtain ⟨e, he⟩ := getProp_not_nullish c "error" hn
    by_cases hu : unprintable e = true ∨ limit < arrayDepth e
    · left; exact ⟨Or.inr ⟨e, he, hu⟩, item_unprintable limit name c e he hu⟩
    · right
      have hu1 : unprintable e = false := by
        cases h : unprintable e with
        | false => rfl
        | true => exact absurd (Or.inl h) hu
      have hu2 : arrayDepth e ≤ limit := by
        have : ¬ limit < arrayDepth e := fun h => hu (Or.inr h)
        omega
      refine ⟨?_, item_printable limit name c e he hu1 hu2⟩
      rintro (h | ⟨e2, he2, hu3⟩)
      · rw [hn] at h; cases h
      · rw [he] at he2
        injection he2 with he2
        exact hu (he2 ▸ hu3)

theorem renderHtml_cases (limit : Nat) (data : JSValue) :
    ((isNullish data = true ∨
        (∃ c, getProp data "chatwoot" = .ok c ∧ throwsInItem limit c) ∨
        (∃ m, getProp data "mysql" = .ok m ∧ throwsInItem limit m)) ∧
      ∃ err, renderHtml limit data = .error err) ∨
    (¬ (isNullish data = true ∨
        (∃ c, getProp data "chatwoot" = .ok c ∧ throwsInItem limit c) ∨
        (∃ m, getProp data "mysql" = .ok m ∧ throwsInItem limit m)) ∧
      ∃ html, renderHtml limit data = .ok html) := by
  cases hn : isNullish data with
  | true =>
    left
    refine ⟨Or.inl rfl, .typeError, ?_⟩
    simp only [renderHtml, getProp_nullish data "ok" hn, bind, Except.bind]
  | false =>
    obtain ⟨o, ho⟩ := getProp_not_nullish data "ok" hn
    obtain ⟨c, hc⟩ := getProp_not_nullish data "chatwoot" hn
    obtain ⟨m, hm⟩ := getProp_not_nullish data "mysql" hn
    rcases item_cases limit "Chatwoot API" c with ⟨bc, err, h1⟩ | ⟨gc, e1, h1⟩
    · left
      refine ⟨Or.inr (Or.inl ⟨c, hc, bc⟩), err, ?_⟩
      simp only [renderHtml, ho, hc, h1, bind, Except.bind]
    · rcases item_cases limit "MySQL" m with ⟨bm, err, h2⟩ | ⟨gm, e2, h2⟩
      · left
        refine ⟨Or.inr (Or.inr ⟨m, hm, bm⟩), err, ?_⟩
        simp only [renderHtml, ho, hc, hm, h1, h2, bind, Except.bind]
      · right
        refine ⟨?_, _, renderHtml_of_items limit data o c m e1 e2 ho hc hm h1 h2⟩
        rintro (h | ⟨c2, hc2, b⟩ | ⟨m2, hm2, b⟩)
        · cases h
        · rw [hc] at hc2
          injection hc2 with hc2
          exact gc (hc2 ▸ b)
        · rw [hm] at hm2
          injection hm2 with hm2
          exact gm (hm2 ▸ b)

/-! ## The renderer: badges, entries, order

In every statement `limit` is the room on the call stack for nested arrays, the first
argument of `toStringJS`; the statements hold for every value of it. -/

/-- C1: for a report whose `ok` is a boolean and whose two sub-checks are well-formed
objects, the overall line written by `render` carries the success badge when `ok` is
true and the danger badge when `ok` is false, whatever the two sub-checks are (they only
determine the two entries that follow); and `okBadge` has these two outputs only. -/
theorem overall_badge_follows_ok (limit : Nat) (data c m : JSValue) (b : Bool)
    (hok : getProp data "ok" = .ok (.bool b))
    (hc : getProp data "chatwoot" = .ok c) (hm : getProp data "mysql" = .ok m)
    (hcr : isCheckResult c = true) (hmr : isCheckResult m = true) :
    (∃ e1 e2, item limit "Chatwoot API" c = .ok e1 ∧ item limit "MySQL" m = .ok e2 ∧
      renderHtml limit data = .ok ("\n    <div class=\"mb-2\">"
        ++ (if b then "<span class=\"badge bg-success\">OK</span>"
              else "<span class=\"badge bg-danger\">ERROR</span>")
        ++ " Resultado general</div>\n    " ++ e1 ++ "\n    " ++ e2 ++ "\n  ")) ∧
    okBadge (.bool true) = "<span class=\"badge bg-success\">OK</span>" ∧
    okBadge (.bool false) = "<span class=\"badge bg-danger\">ERROR</span>" ∧
    ∀ v, okBadge v = "<span class=\"badge bg-success\">OK</span>" ∨
      okBadge v = "<span class=\"badge bg-danger\">ERROR</span>" := by
  obtain ⟨_, _, _, h1⟩ := item_checkResult limit "Chatwoot API" c hcr
  obtain ⟨_, _, _, h2⟩ := item_checkResult limit "MySQL" m hmr
  refine ⟨⟨_, _, h1, h2, ?_⟩, rfl, rfl, ?_⟩
  · rw [renderHtml_of_items limit data _ c m _ _ hok hc hm h1 h2]
    cases b <;> rfl
  · intro v
    unfold okBadge
    cases toBoolean v
    · right; rfl
    · left; rfl

/-- Witness of C1 on the sample response, whose overall `ok` is false. -/
theorem overall_badge_follows_ok_witness :
    ∃ e1 e2, item 1000 "Chatwoot API" sampleChatwoot = .ok e1 ∧ item 1000 "MySQL" sampleMysql = .ok e2 ∧
      renderHtml 1000 sampleReport = .ok ("\n    <div class=\"mb-2\">"
        ++ "<span class=\"badge bg-danger\">ERROR</span>"
        ++ " Resultado general</div>\n    " ++ e1 ++ "\n    " ++ e2 ++ "\n  ") :=
  (overall_badge_follows_ok 1000 sampleReport sampleChatwoot sampleMysql false rfl rfl rfl rfl rfl).1

/-- C2: take two reports with well-formed sub-checks that differ arbitrarily in the
overall `ok` and in the other sub-check.  When their `chatwoot` sub-checks agree on
`ok` and on `error`, the entry `item("Chatwoot API", ...)` is the same string in both
renderings, and its badge is the success badge when its own `ok` is true and the danger
badge when it is false; likewise for the `mysql` sub-checks and the "MySQL" entry. -/
theorem subcheck_entry_depends_on_own_fields (limit : Nat) (d1 d2 o1 o2 c1 c2 m1 m2 : JSValue)
    (h1o : getProp d1 "ok" = .ok o1) (h1c : getProp d1 "chatwoot" = .ok c1)
    (h1m : getProp d1 "mysql" = .ok m1)
    (h2o : getProp d2 "ok" = .ok o2) (h2c : getProp d2 "chatwoot" = .ok c2)
    (h2m : getProp d2 "mysql" = .ok m2)
    (wc1 : isCheckResult c1 = true) (wc2 : isCheckResult c2 = true)
    (wm1 : isCheckResult m1 = true) (wm2 : isCheckResult m2 = true) :
    (getProp c1 "ok" = getProp c2 "ok" → getProp c1 "error" = getProp c2 "error" →
      ∃ (b : Bool) (detail x1 x2 : String), getProp c1 "ok" = .ok (.bool b) ∧
        item limit "MySQL" m1 = .ok x1 ∧ item limit "MySQL" m2 = .ok x2 ∧
        renderHtml limit d1 = .ok ("\n    <div class=\"mb-2\">" ++ okBadge o1 ++ " Resultado general</div>\n    "
          ++ ("\n  <div class=\"d-flex justify-content-between align-items-center border rounded p-2 mb-2\">\n    <div>\n      <strong>"
          ++ "Chatwoot API" ++ "</strong>\n      <div class=\"text-muted small\">"
          ++ detail ++ "</div>\n    </div>\n    "
          ++ (if b then "<span class=\"badge bg-success\">OK</span>"
                else "<span class=\"badge bg-danger\">ERROR</span>") ++ "\n  </div>") ++ "\n    " ++ x1 ++ "\n  ") ∧
        renderHtml limit d2 = .ok ("\n    <div class=\"mb-2\">" ++ okBadge o2 ++ " Resultado general</div>\n    "
          ++ ("\n  <div class=\"d-flex justify-content-between align-items-center border rounded p-2 mb-2\">\n    <div>\n      <strong>"
          ++ "Chatwoot API" ++ "</strong>\n      <div class=\"text-muted small\">"
          ++ detail ++ "</div>\n    </div>\n    "
          ++ (if b then "<span class=\"badge bg-success\">OK</span>"
                else "<span class=\"badge bg-danger\">ERROR</span>") ++ "\n  </div>") ++ "\n    " ++ x2 ++ "\n  ")) ∧
    (getProp m1 "ok" = getProp m2 "ok" → getProp m1 "error" = getProp m2 "error" →
      ∃ (b : Bool) (detail x1 x2 : String), getProp m1 "ok" = .ok (.bool b) ∧
        item limit "Chatwoot API" c1 = .ok x1 ∧ item limit "Chatwoot API" c2 = .ok x2 ∧
        renderHtml limit d1 = .ok ("\n    <div class=\"mb-2\">" ++ okBadge o1 ++ " Resultado general</div>\n    "
          ++ x1 ++ "\n    " ++ ("\n  <div class=\"d-flex justify-content-between align-items-center border rounded p-2 mb-2\">\n    <div>\n      <strong>"
          ++ "MySQL" ++ "</strong>\n      <div class=\"text-muted small\">"
          ++ detail ++ "</div>\n    </div>\n    "
          ++ (if b then "<span class=\"badge bg-success\">OK</span>"
                else "<span class=\"badge bg-danger\">ERROR</span>") ++ "\n  </div>") ++ "\n  ") ∧
        renderHtml limit d2 = .ok ("\n    <div class=\"mb-2\">" ++ okBadge o2 ++ " Resultado general</div>\n    "
          ++ x2 ++ "\n    " ++ ("\n  <div class=\"d-flex justify-content-between align-items-center border rounded p-2 mb-2\">\n    <div>\n      <strong>"
          ++ "MySQL" ++ "</strong>\n      <div class=\"text-muted small\">"
          ++ detail ++ "</div>\n    </div>\n    "
          ++ (if b then "<span class=\"badge bg-success\">OK</span>"
                else "<span class=\"badge bg-danger\">ERROR</span>") ++ "\n  </div>") ++ "\n  ")) := by
  obtain ⟨bc, dc, hbc, ic1⟩ := item_checkResult limit "Chatwoot API" c1 wc1
  obtain ⟨_, _, _, ic2⟩ := item_checkResult limit "Chatwoot API" c2 wc2
  obtain ⟨bm, dm, hbm, im1⟩ := item_checkResult limit "MySQL" m1 wm1
  obtain ⟨_, _, _, im2⟩ := item_checkResult limit "MySQL" m2 wm2
  constructor
  · intro hok he
    have ic2b := ic1
    rw [item_congr limit "Chatwoot API" c1 c2 hok he] at ic2b
    exact ⟨bc, dc, _, _, hbc, im1, im2,
      renderHtml_of_items limit d1 o1 c1 m1 _ _ h1o h1c h1m ic1 im1,
      renderHtml_of_items limit d2 o2 c2 m2 _ _ h2o h2c h2m ic2b im2⟩
  · intro hok he
    have im2b := im1
    rw [item_congr limit "MySQL" m1 m2 hok he] at im2b
    exact ⟨bm, dm, _, _, hbm, ic1, ic2,
      renderHtml_of_items limit d1 o1 c1 m1 _ _ h1o h1c h1m ic1 im1,
      renderHtml_of_items limit d2 o2 c2 m2 _ _ h2o h2c h2m ic2 im2b⟩

/-- Witness of C2: the sample response and the response
`{"ok":true,"chatwoot":{"ok":true,"error":null},"mysql":{"ok":true,"error":null}}`
agree on the `chatwoot` sub-check and differ in the overall `ok` and in `mysql`. -/
theorem subcheck_entry_depends_on_own_fields_witness :
    ∃ (b : Bool) (detail x1 x2 : String), getProp sampleChatwoot "ok" = .ok (.bool b) ∧
      item 1000 "MySQL" sampleMysql = .ok x1 ∧ item 1000 "MySQL" sampleChatwoot = .ok x2 ∧
      renderHtml 1000 sampleReport = .ok ("\n    <div class=\"mb-2\">" ++ okBadge (.bool false) ++ " Resultado general</div>\n    "
        ++ ("\n  <div class=\"d-flex justify-content-between align-items-center border rounded p-2 mb-2\">\n    <div>\n      <strong>"
          ++ "Chatwoot API" ++ "</strong>\n      <div class=\"text-muted small\">"
          ++ detail ++ "</div>\n    </div>\n    "
          ++ (if b then "<span class=\"badge bg-success\">OK</span>"
                else "<span class=\"badge bg-danger\">ERROR</span>") ++ "\n  </div>") ++ "\n    " ++ x1 ++ "\n  ") ∧
      renderHtml 1000 (.object (.cons "ok" (.bool true)
          (.cons "chatwoot" sampleChatwoot (.cons "mysql" sampleChatwoot .nil))))
        = .ok ("\n    <div class=\"mb-2\">" ++ okBadge (.bool true) ++ " Resultado general</div>\n    "
        ++ ("\n  <div class=\"d-flex justify-content-between align-items-center border rounded p-2 mb-2\">\n    <div>\n      <strong>"
          ++ "Chatwoot API" ++ "</strong>\n      <div class=\"text-muted small\">"
          ++ detail ++ "</div>\n    </div>\n    "
          ++ (if b then "<span class=\"badge bg-success\">OK</span>"
                else "<span class=\"badge bg-danger\">ERROR</span>") ++ "\n  </div>") ++ "\n    " ++ x2 ++ "\n  ") :=
  (subcheck_entry_depends_on_own_fields 1000 sampleReport
    (.object (.cons "ok" (.bool true)
      (.cons "chatwoot" sampleChatwoot (.cons "mysql" sampleChatwoot .nil))))
    (.bool false) (.bool true) sampleChatwoot sampleChatwoot sampleMysql sampleChatwoot
    rfl rfl rfl rfl rfl rfl rfl rfl rfl rfl).1 rfl rfl

/-- C3: for every display name and every object `result`, when `result.error` is absent
or null the detail line of `item(name, result)` is the empty element
`<div class="text-muted small"></div>`, and when it is a string `s` the detail line is
that opening tag, then `s` unchanged, then `</div>`. -/
theorem item_detail_line (limit : Nat) (name : String) (ps : JSProps) :
    ((ps.lookup "error" = none ∨ ps.lookup "error" = some .null) →
      item limit name (.object ps) = .ok ("\n  <div class=\"d-flex justify-content-between align-items-center border rounded p-2 mb-2\">\n    <div>\n      <strong>"
        ++ name ++ "</strong>\n      <div class=\"text-muted small\"></div>\n    </div>\n    "
        ++ okBadge ((ps.lookup "ok").getD .undefined) ++ "\n  </div>")) ∧
    (∀ s : String, ps.lookup "error" = some (.string s) →
      item limit name (.object ps) = .ok ("\n  <div class=\"d-flex justify-content-between align-items-center border rounded p-2 mb-2\">\n    <div>\n      <strong>"
        ++ name ++ "</strong>\n      <div class=\"text-muted small\">"
        ++ s ++ "</div>\n    </div>\n    "
        ++ okBadge ((ps.lookup "ok").getD .undefined) ++ "\n  </div>")) := by
  have key : ∀ (e : JSValue) (d : String), getProp (.object ps) "error" = .ok e →
      toStringJS limit (logicalOr e (.string "")) = .ok d →
      item limit name (.object ps) = .ok ("\n  <div class=\"d-flex justify-content-between align-items-center border rounded p-2 mb-2\">\n    <div>\n      <strong>"
        ++ name ++ "</strong>\n      <div class=\"text-muted small\">"
        ++ d ++ "</div>\n    </div>\n    "
        ++ okBadge ((ps.lookup "ok").getD .undefined) ++ "\n  </div>") :=
    fun e d he hd => item_of_reads limit name (.object ps) e _ d he rfl hd
  constructor
  · intro h
    have glue : ∀ x y : String,
        x ++ "</strong>\n      <div class=\"text-muted small\">" ++ "" ++ "</div>\n    </div>\n    " ++ y
          = x ++ "</strong>\n      <div class=\"text-muted small\"></div>\n    </div>\n    " ++ y := by
      intro x y
      have lit : "</strong>\n      <div class=\"text-muted small\">" ++ "</div>\n    </div>\n    "
          = "</strong>\n      <div class=\"text-muted small\"></div>\n    </div>\n    " := by decide
      rw [String.append_empty, String.append_assoc x, lit]
    rw [← glue]
    rcases h with h | h
    · exact key .undefined "" (by simp only [getProp, h, Option.getD]) rfl
    · exact key .null "" (by simp only [getProp, h, Option.getD]) rfl
  · intro s h
    exact key (.string s) s (by simp only [getProp, h, Option.getD]) (toStringJS_detail_string limit s)

/-- Witness of C3: the sample sub-check with a null error has the empty detail element,
the one with the error text `connection refused` shows that text. -/
theorem item_detail_line_witness :
    item 1000 "Chatwoot API" sampleChatwoot = .ok "\n  <div class=\"d-flex justify-content-between align-items-center border rounded p-2 mb-2\">\n    <div>\n      <strong>Chatwoot API</strong>\n      <div class=\"text-muted small\"></div>\n    </div>\n    <span class=\"badge bg-success\">OK</span>\n  </div>" ∧
    item 1000 "MySQL" sampleMysql = .ok "\n  <div class=\"d-flex justify-content-between align-items-center border rounded p-2 mb-2\">\n    <div>\n      <strong>MySQL</strong>\n      <div class=\"text-muted small\">connection refused</div>\n    </div>\n    <span class=\"badge bg-danger\">ERROR</span>\n  </div>" :=
  ⟨(item_detail_line 1000 "Chatwoot API"
      (.cons "ok" (.bool true) (.cons "error" .null .nil))).1 (Or.inr rfl),
   (item_detail_line 1000 "MySQL"
      (.cons "ok" (.bool false) (.cons "error" (.string "connection refused") .nil))).2
      "connection refused" rfl⟩

/-- C4: for a report whose two sub-checks are well-formed objects, `render` writes the
overall line followed by exactly two entries in fixed order, first
`item("Chatwoot API", data.chatwoot)`, then `item("MySQL", data.mysql)`; and the sample
response renders with the failure badge overall, a "Chatwoot API" row with the success
badge and an empty detail, and a "MySQL" row with the failure badge and the detail
`connection refused`. -/
theorem render_entries_in_order (limit : Nat) (data o c m : JSValue) (w : World)
    (ho : getProp data "ok" = .ok o)
    (hc : getProp data "chatwoot" = .ok c) (hm : getProp data "mysql" = .ok m)
    (hcr : isCheckResult c = true) (hmr : isCheckResult m = true) :
    (∃ e1 e2, item limit "Chatwoot API" c = .ok e1 ∧ item limit "MySQL" m = .ok e2 ∧
      render limit data w = .ok (w.setInnerHTML
        ("\n    <div class=\"mb-2\">" ++ okBadge o ++ " Resultado general</div>\n    "
          ++ e1 ++ "\n    " ++ e2 ++ "\n  "))) ∧
    render limit sampleReport w = .ok (w.setInnerHTML
      "\n    <div class=\"mb-2\"><span class=\"badge bg-danger\">ERROR</span> Resultado general</div>\n    \n  <div class=\"d-flex justify-content-between align-items-center border rounded p-2 mb-2\">\n    <div>\n      <strong>Chatwoot API</strong>\n      <div class=\"text-muted small\"></div>\n    </div>\n    <span class=\"badge bg-success\">OK</span>\n  </div>\n    \n  <div class=\"d-flex justify-content-between align-items-center border rounded p-2 mb-2\">\n    <div>\n      <strong>MySQL</strong>\n      <div class=\"text-muted small\">connection refused</div>\n    </div>\n    <span class=\"badge bg-danger\">ERROR</span>\n  </div>\n  ") := by
  obtain ⟨_, _, _, h1⟩ := item_checkResult limit "Chatwoot API" c hcr
  obtain ⟨_, _, _, h2⟩ := item_checkResult limit "MySQL" m hmr
  refine ⟨⟨_, _, h1, h2, ?_⟩, rfl⟩
  simp only [render, renderHtml_of_items limit data o c m _ _ ho hc hm h1 h2, bind, Except.bind,
    pure, Except.pure]

/-- Witness of C4 on the sample response, written into an empty page. -/
theorem render_entries_in_order_witness :
    render 1000 sampleReport emptyWorld = .ok (emptyWorld.setInnerHTML
      "\n    <div class=\"mb-2\"><span class=\"badge bg-danger\">ERROR</span> Resultado general</div>\n    \n  <div class=\"d-flex justify-content-between align-items-center border rounded p-2 mb-2\">\n    <div>\n      <strong>Chatwoot API</strong>\n      <div class=\"text-muted small\"></div>\n    </div>\n    <span class=\"badge bg-success\">OK</span>\n  </div>\n    \n  <div class=\"d-flex justify-content-between align-items-center border rounded p-2 mb-2\">\n    <div>\n      <strong>MySQL</strong>\n      <div class=\"text-muted small\">connection refused</div>\n    </div>\n    <span class=\"badge bg-danger\">ERROR</span>\n  </div>\n  ") :=
  (render_entries_in_order 1000 sampleReport (.bool false) sampleChatwoot sampleMysql emptyWorld
    rfl rfl rfl rfl rfl).2

/-! ## The click handler -/

/-- C5: when the request is rejected (or the network is unreachable), and when the
body is not valid JSON, the handler completes normally, whatever the reason, and leaves
the display region equal to the generic failure message; no fragment that `render`
produces, for any input, equals that message. -/
theorem transport_failure_shows_generic_message (limit : Nat) (reason : JSError) (w : World) :
    clickHandler limit (.error reason) w
      = .ok ((handlerStart w).setInnerHTML "<div class=\"text-danger\">No se pudo verificar.</div>") ∧
    clickHandler limit (.ok ⟨.error reason⟩) w
      = .ok ((handlerStart w).setInnerHTML "<div class=\"text-danger\">No se pudo verificar.</div>") ∧
    ((handlerStart w).setInnerHTML "<div class=\"text-danger\">No se pudo verificar.</div>").innerHTML
      = "<div class=\"text-danger\">No se pudo verificar.</div>" ∧
    ∀ data html, renderHtml limit data = .ok html →
      html ≠ "<div class=\"text-danger\">No se pudo verificar.</div>" := by
  refine ⟨rfl, rfl, rfl, ?_⟩
  intro data html h
  apply ne_of_head
  rw [renderHtml_head limit data html h]
  decide

/-- Witness of C5: a rejected request on an empty page, and the rendering of the sample
response, which differs from the failure message. -/
theorem transport_failure_shows_generic_message_witness :
    clickHandler 1000 (.error .typeError) emptyWorld
      = .ok ((handlerStart emptyWorld).setInnerHTML
          "<div class=\"text-danger\">No se pudo verificar.</div>") ∧
    "\n    <div class=\"mb-2\"><span class=\"badge bg-danger\">ERROR</span> Resultado general</div>\n    \n  <div class=\"d-flex justify-content-between align-items-center border rounded p-2 mb-2\">\n    <div>\n      <strong>Chatwoot API</strong>\n      <div class=\"text-muted small\"></div>\n    </div>\n    <span class=\"badge bg-success\">OK</span>\n  </div>\n    \n  <div class=\"d-flex justify-content-between align-items-center border rounded p-2 mb-2\">\n    <div>\n      <strong>MySQL</strong>\n      <div class=\"text-muted small\">connection refused</div>\n    </div>\n    <span class=\"badge bg-danger\">ERROR</span>\n  </div>\n  " ≠ "<div class=\"text-danger\">No se pudo verificar.</div>" :=
  ⟨(transport_failure_shows_generic_message 1000 .typeError emptyWorld).1,
   (transport_failure_shows_generic_message 1000 .typeError emptyWorld).2.2.2 sampleReport _ rfl⟩

/-- C8: whatever the display region held, the first step of the click handler writes
the interim message and issues no request; the request is issued next, so that at the
first `await`, with the request pending, the display is the interim message, which is
neither the generic failure message nor a fragment that `render` produces. -/
theorem interim_message_before_request (limit : Nat) (w : World) :
    (w.setInnerHTML "<div class=\"text-muted\">Verificando...</div>").innerHTML
      = "<div class=\"text-muted\">Verificando...</div>" ∧
    (w.setInnerHTML "<div class=\"text-muted\">Verificando...</div>").requests = w.requests ∧
    handlerStart w
      = (w.setInnerHTML "<div class=\"text-muted\">Verificando...</div>").fetch "/api/status" ∧
    (handlerStart w).innerHTML = "<div class=\"text-muted\">Verificando...</div>" ∧
    (handlerStart w).requests
      = w.requests ++ [{ method := "GET", url := "/api/status", body := none }] ∧
    "<div class=\"text-muted\">Verificando...</div>"
      ≠ "<div class=\"text-danger\">No se pudo verificar.</div>" ∧
    ∀ data html, renderHtml limit data = .ok html →
      html ≠ "<div class=\"text-muted\">Verificando...</div>" := by
  refine ⟨rfl, rfl, rfl, rfl, rfl, by decide, ?_⟩
  intro data html h
  apply ne_of_head
  rw [renderHtml_head limit data html h]
  decide

/-- Witness of C8 on a page that shows an earlier failure message. -/
theorem interim_message_before_request_witness :
    (handlerStart { innerHTML := "<div class=\"text-danger\">No se pudo verificar.</div>",
                    requests := [] }).innerHTML
      = "<div class=\"text-muted\">Verificando...</div>" ∧
    "\n    <div class=\"mb-2\"><span class=\"badge bg-danger\">ERROR</span> Resultado general</div>\n    \n  <div class=\"d-flex justify-content-between align-items-center border rounded p-2 mb-2\">\n    <div>\n      <strong>Chatwoot API</strong>\n      <div class=\"text-muted small\"></div>\n    </div>\n    <span class=\"badge bg-success\">OK</span>\n  </div>\n    \n  <div class=\"d-flex justify-content-between align-items-center border rounded p-2 mb-2\">\n    <div>\n      <strong>MySQL</strong>\n      <div class=\"text-muted small\">connection refused</div>\n    </div>\n    <span class=\"badge bg-danger\">ERROR</span>\n  </div>\n  " ≠ "<div class=\"text-muted\">Verificando...</div>" :=
  ⟨(interim_message_before_request 1000 _).2.2.2.1,
   (interim_message_before_request 1000 emptyWorld).2.2.2.2.2.2 sampleReport _ rfl⟩

/-- C9: whatever the promise of `fetch` settles to (rejection, a body that is not JSON,
a parsed value that renders or one on which rendering throws), the handler completes
having added exactly one request to those issued before, a GET to `/api/status` without
a body, the one issued before the first `await`. -/
theorem one_get_request_per_click (limit : Nat) (settled : Except JSError Response) (w : World) :
    (handlerStart w).requests
      = w.requests ++ [{ method := "GET", url := "/api/status", body := none }] ∧
    ∃ w2, clickHandler limit settled w = .ok w2 ∧
      w2.requests = w.requests ++ [{ method := "GET", url := "/api/status", body := none }] := by
  refine ⟨rfl, ?_⟩
  rcases handlerResume_cases limit settled (handlerStart w) with h | ⟨_, html, _, _, h⟩
  · exact ⟨_, h, rfl⟩
  · exact ⟨_, h, rfl⟩

/-- C7, as stated, fails: the rendering of the sample response does not contain the
text `Overall result` anywhere. -/
theorem overall_label_not_english :
    (∀ limit, renderHtml limit sampleReport = .ok "\n    <div class=\"mb-2\"><span class=\"badge bg-danger\">ERROR</span> Resultado general</div>\n    \n  <div class=\"d-flex justify-content-between align-items-center border rounded p-2 mb-2\">\n    <div>\n      <strong>Chatwoot API</strong>\n      <div class=\"text-muted small\"></div>\n    </div>\n    <span class=\"badge bg-success\">OK</span>\n  </div>\n    \n  <div class=\"d-flex justify-content-between align-items-center border rounded p-2 mb-2\">\n    <div>\n      <strong>MySQL</strong>\n      <div class=\"text-muted small\">connection refused</div>\n    </div>\n    <span class=\"badge bg-danger\">ERROR</span>\n  </div>\n  ") ∧
    ¬ ("Overall result".data <:+: ("\n    <div class=\"mb-2\"><span class=\"badge bg-danger\">ERROR</span> Resultado general</div>\n    \n  <div class=\"d-flex justify-content-between align-items-center border rounded p-2 mb-2\">\n    <div>\n      <strong>Chatwoot API</strong>\n      <div class=\"text-muted small\"></div>\n    </div>\n    <span class=\"badge bg-success\">OK</span>\n  </div>\n    \n  <div class=\"d-flex justify-content-between align-items-center border rounded p-2 mb-2\">\n    <div>\n      <strong>MySQL</strong>\n      <div class=\"text-muted small\">connection refused</div>\n    </div>\n    <span class=\"badge bg-danger\">ERROR</span>\n  </div>\n  ").data) :=
  ⟨fun _ => rfl, by decide⟩

/-- C7, amended: for a report whose two sub-checks are well-formed objects, the fragment
starts, after the indentation, with the overall line: the badge selected by `data.ok`,
then a space and the fixed label `Resultado general`. -/
theorem overall_line_badge_then_label (limit : Nat) (data o c m : JSValue)
    (ho : getProp data "ok" = .ok o)
    (hc : getProp data "chatwoot" = .ok c) (hm : getProp data "mysql" = .ok m)
    (hcr : isCheckResult c = true) (hmr : isCheckResult m = true) :
    ∃ rest, renderHtml limit data = .ok ("\n    "
      ++ ("<div class=\"mb-2\">" ++ okBadge o ++ " Resultado general</div>") ++ rest) := by
  obtain ⟨e1, h1⟩ : ∃ e1, item limit "Chatwoot API" c = .ok e1 :=
    (item_checkResult limit "Chatwoot API" c hcr).elim fun _ h => h.elim fun _ h => ⟨_, h.2⟩
  obtain ⟨e2, h2⟩ : ∃ e2, item limit "MySQL" m = .ok e2 :=
    (item_checkResult limit "MySQL" m hmr).elim fun _ h => h.elim fun _ h => ⟨_, h.2⟩
  refine ⟨"\n    " ++ (e1 ++ ("\n    " ++ (e2 ++ "\n  "))), ?_⟩
  rw [renderHtml_of_items limit data o c m e1 e2 ho hc hm h1 h2]
  have l1 : "\n    <div class=\"mb-2\">" = "\n    " ++ "<div class=\"mb-2\">" := by decide
  have l2 : " Resultado general</div>\n    " = " Resultado general</div>" ++ "\n    " := by
    decide
  rw [l1, l2]
  simp only [String.append_assoc]

/-- Witness of C7 amended, on the sample response. -/
theorem overall_line_badge_then_label_witness :
    ∃ rest, renderHtml 1000 sampleReport = .ok ("\n    "
      ++ ("<div class=\"mb-2\">" ++ okBadge (.bool false) ++ " Resultado general</div>") ++ rest) :=
  overall_line_badge_then_label 1000 sampleReport (.bool false) sampleChatwoot sampleMysql
    rfl rfl rfl rfl rfl

/-! ## Responses outside the contract -/

/-- C6, as stated, fails: a body that parses as JSON but lacks the `chatwoot` field
makes `render` throw, and the handler ends on the generic failure message, whatever
room the call stack has. -/
theorem missing_subcheck_shows_failure :
    getProp missingChatwoot "chatwoot" = .ok .undefined ∧
    ∀ limit, renderHtml limit missingChatwoot = .error .typeError ∧
      clickHandler limit (.ok ⟨.ok missingChatwoot⟩) emptyWorld
        = .ok ((handlerStart emptyWorld).setInnerHTML "<div class=\"text-danger\">No se pudo verificar.</div>") :=
  ⟨rfl, fun _ => ⟨rfl, rfl⟩⟩

/-- C6, amended: when the parsed body has `chatwoot` and `mysql` values that are neither
absent nor null, and the `error` of each can be converted to a string (it holds no
object with an own property `toString`, and its arrays are nested no deeper than the
call stack has room for), the handler writes the structured fragment of `render` and
not the generic failure message, whatever else is missing or ill-typed; a sub-check
without `ok` and without `error` shows an empty detail and the ERROR badge. -/
theorem loose_shape_still_renders (limit : Nat) (data c m : JSValue) (w : World)
    (hc : getProp data "chatwoot" = .ok c) (hm : getProp data "mysql" = .ok m)
    (hcn : isNullish c = false) (hmn : isNullish m = false)
    (hce : ∀ e, getProp c "error" = .ok e → unprintable e = false ∧ arrayDepth e ≤ limit)
    (hme : ∀ e, getProp m "error" = .ok e → unprintable e = false ∧ arrayDepth e ≤ limit) :
    (∃ o e1 e2, getProp data "ok" = .ok o ∧
      item limit "Chatwoot API" c = .ok e1 ∧ item limit "MySQL" m = .ok e2 ∧
      clickHandler limit (.ok ⟨.ok data⟩) w = .ok ((handlerStart w).setInnerHTML
        ("\n    <div class=\"mb-2\">" ++ okBadge o ++ " Resultado general</div>\n    "
          ++ e1 ++ "\n    " ++ e2 ++ "\n  ")) ∧
      "\n    <div class=\"mb-2\">" ++ okBadge o ++ " Resultado general</div>\n    "
          ++ e1 ++ "\n    " ++ e2 ++ "\n  " ≠ "<div class=\"text-danger\">No se pudo verificar.</div>") ∧
    (∀ (name : String) (ps : JSProps), ps.lookup "ok" = none → ps.lookup "error" = none →
      item limit name (.object ps) = .ok ("\n  <div class=\"d-flex justify-content-between align-items-center border rounded p-2 mb-2\">\n    <div>\n      <strong>"
        ++ name ++ "</strong>\n      <div class=\"text-muted small\">"
        ++ "" ++ "</div>\n    </div>\n    "
        ++ "<span class=\"badge bg-danger\">ERROR</span>" ++ "\n  </div>")) := by
  constructor
  · have hdn : isNullish data = false := by
      cases data <;> first | rfl | cases hc
    obtain ⟨o, ho⟩ := getProp_not_nullish data "ok" hdn
    obtain ⟨ec, hec⟩ := getProp_not_nullish c "error" hcn
    obtain ⟨em, hem⟩ := getProp_not_nullish m "error" hmn
    obtain ⟨e1, h1⟩ := item_printable limit "Chatwoot API" c ec hec (hce ec hec).1 (hce ec hec).2
    obtain ⟨e2, h2⟩ := item_printable limit "MySQL" m em hem (hme em hem).1 (hme em hem).2
    have hr := renderHtml_of_items limit data o c m e1 e2 ho hc hm h1 h2
    refine ⟨o, e1, e2, ho, h1, h2, handlerResume_render_ok limit data _ _ hr, ?_⟩
    apply ne_of_head
    rw [renderHtml_head limit data _ hr]
    decide
  · intro name ps hok herr
    exact item_of_reads limit name (.object ps) .undefined .undefined ""
      (by simp only [getProp, herr, Option.getD]) (by simp only [getProp, hok, Option.getD]) rfl

/-- Witness of C6 amended: the body `{"chatwoot":{},"mysql":"down"}` has no `ok`, an
empty `chatwoot` object and a string where the `mysql` object should be, and still
renders. -/
theorem loose_shape_still_renders_witness :
    ∃ o e1 e2, getProp (.object (.cons "chatwoot" (.object .nil)
          (.cons "mysql" (.string "down") .nil))) "ok" = .ok o ∧
      item 1000 "Chatwoot API" (.object .nil) = .ok e1 ∧
      item 1000 "MySQL" (.string "down") = .ok e2 ∧
      clickHandler 1000 (.ok ⟨.ok (.object (.cons "chatwoot" (.object .nil)
          (.cons "mysql" (.string "down") .nil)))⟩) emptyWorld
        = .ok ((handlerStart emptyWorld).setInnerHTML
        ("\n    <div class=\"mb-2\">" ++ okBadge o ++ " Resultado general</div>\n    "
          ++ e1 ++ "\n    " ++ e2 ++ "\n  ")) ∧
      "\n    <div class=\"mb-2\">" ++ okBadge o ++ " Resultado general</div>\n    "
          ++ e1 ++ "\n    " ++ e2 ++ "\n  " ≠ "<div class=\"text-danger\">No se pudo verificar.</div>" :=
  (loose_shape_still_renders 1000
    (.object (.cons "chatwoot" (.object .nil) (.cons "mysql" (.string "down") .nil)))
    (.object .nil) (.string "down") emptyWorld rfl rfl rfl rfl
    (fun e h => by cases h; exact ⟨rfl, Nat.zero_le _⟩)
    (fun e h => by cases h; exact ⟨rfl, Nat.zero_le _⟩)).1

/-- C10, as stated, fails: in the response `unprintableError` the value is not null and
both sub-checks are objects, yet the handler ends on the generic failure message,
whatever room the call stack has, because the `error` of the first sub-check cannot be
converted to a string. -/
theorem unprintable_error_shows_failure :
    isNullish unprintableError = false ∧
    (∃ c, getProp unprintableError "chatwoot" = .ok c ∧ isNullish c = false) ∧
    (∃ m, getProp unprintableError "mysql" = .ok m ∧ isNullish m = false) ∧
    ∀ limit, clickHandler limit (.ok ⟨.ok unprintableError⟩) emptyWorld
      = .ok ((handlerStart emptyWorld).setInnerHTML "<div class=\"text-danger\">No se pudo verificar.</div>") :=
  ⟨rfl, ⟨_, rfl, rfl⟩, ⟨_, rfl, rfl⟩, fun _ => rfl⟩

/-- C10, amended: for every parsed value `data` the handler completes, and it ends on
the generic failure message if and only if `data` is null (or undefined), or
`data.chatwoot` or `data.mysql` is null or absent or has an `error` that cannot be
converted to a string: one that holds an object with an own property `toString` (the
object itself, or an element of an array, at any nesting), or whose arrays are nested
deeper than the call stack has room for; in every other case the display ends as the
fragment of `render(data)`. -/
theorem failure_message_iff_render_throws (limit : Nat) (data : JSValue) (w : World) :
    ∃ w2, clickHandler limit (.ok ⟨.ok data⟩) w = .ok w2 ∧
      (w2.innerHTML = "<div class=\"text-danger\">No se pudo verificar.</div>" ↔
        (isNullish data = true ∨
          (∃ c, getProp data "chatwoot" = .ok c ∧ throwsInItem limit c) ∨
          (∃ m, getProp data "mysql" = .ok m ∧ throwsInItem limit m))) ∧
      (w2.innerHTML ≠ "<div class=\"text-danger\">No se pudo verificar.</div>" →
        ∃ html, renderHtml limit data = .ok html ∧
          w2 = (handlerStart w).setInnerHTML html) := by
  rcases renderHtml_cases limit data with ⟨hbad, err, herr⟩ | ⟨hgood, html, hok⟩
  · refine ⟨_, handlerResume_render_error limit data err _ herr, ?_, ?_⟩
    · exact ⟨fun _ => hbad, fun _ => rfl⟩
    · intro h; exact absurd rfl h
  · have hne : html ≠ "<div class=\"text-danger\">No se pudo verificar.</div>" := by
      apply ne_of_head
      rw [renderHtml_head limit data html hok]
      decide
    refine ⟨_, handlerResume_render_ok limit data html _ hok, ?_, ?_⟩
    · exact ⟨fun h => absurd h hne, fun h => absurd h hgood⟩
    · intro _; exact ⟨html, hok, rfl⟩

/-- Witness of C10 amended: the sample response renders, so the handler does not end on
the failure message. -/
theorem failure_message_iff_render_throws_witness :
    ∃ w2, clickHandler 1000 (.ok ⟨.ok sampleReport⟩) emptyWorld = .ok w2 ∧
      (w2.innerHTML = "<div class=\"text-danger\">No se pudo verificar.</div>" ↔
        (isNullish sampleReport = true ∨
          (∃ c, getProp sampleReport "chatwoot" = .ok c ∧ throwsInItem 1000 c) ∨
          (∃ m, getProp sampleReport "mysql" = .ok m ∧ throwsInItem 1000 m))) ∧
      (w2.innerHTML ≠ "<div class=\"text-danger\">No se pudo verificar.</div>" →
        ∃ html, renderHtml 1000 sampleReport = .ok html ∧
          w2 = (handlerStart emptyWorld).setInnerHTML html) :=
  failure_message_iff_render_throws 1000 sampleReport emptyWorld

/-- The response `nestedError`, whose `error` is the array `[[]]`, ends on the failure
message when the call stack has room for one level of arrays only, and renders, with an
empty detail, when it has room for two. -/
theorem nested_error_depends_on_room :
    arrayDepth (.array (.cons (.array .nil) .nil)) = 2 ∧
    clickHandler 1 (.ok ⟨.ok nestedError⟩) emptyWorld
      = .ok ((handlerStart emptyWorld).setInnerHTML "<div class=\"text-danger\">No se pudo verificar.</div>") ∧
    item 2 "Chatwoot API" (.object (.cons "ok" (.bool true)
        (.cons "error" (.array (.cons (.array .nil) .nil)) .nil)))
      = .ok "\n  <div class=\"d-flex justify-content-between align-items-center border rounded p-2 mb-2\">\n    <div>\n      <strong>Chatwoot API</strong>\n      <div class=\"text-muted small\"></div>\n    </div>\n    <span class=\"badge bg-success\">OK</span>\n  </div>" :=
  ⟨rfl, rfl, rfl⟩

end StatusWidget
